import Mathlib

/-!
# Verification of the currency-convertor pricing engine

Shallow embedding of the pricing core of the `currency-convertor`
repository (`cloud-function/tier_snapper.py`, `tax_calculator.py`,
`price_stability.py`, `price_converter.py`, `exchange_rates.py`,
`config.py`) over exact rationals, together with proofs and refutations
of the specification's claims about it.

Python `float` values are modelled as `ℚ`; Python's `round(x, n)`
(round-half-to-even) is modelled exactly by `pyRound`, `int(x)`
(truncation towards zero) by `pyInt`, and `str.upper()` by `pyUpper`.
Python dictionaries are modelled as association lists or as if-chains
mirroring the literal tables, and a caught Python exception is modelled
by `Option` (`none` = the computation raised).
-/

/-- Python's `round` to an integer: round half to even (banker's rounding). -/
def roundHalfEven (x : ℚ) : ℤ :=
  let f := ⌊x⌋
  let r := x - (f : ℚ)
  if r < 1/2 then f
  else if 1/2 < r then f + 1
  else if f % 2 = 0 then f else f + 1

/-- Python's `round(x, n)`: round to `n` decimal digits, half to even. -/
def pyRound (n : ℕ) (x : ℚ) : ℚ :=
  (roundHalfEven (x * 10 ^ n) : ℚ) / 10 ^ n

/-- Python's `int(x)` on a float: truncation towards zero. -/
def pyInt (x : ℚ) : ℤ :=
  if 0 ≤ x then ⌊x⌋ else -⌊-x⌋

/-- Python's `str.upper()` (ASCII letters are all that appear in the data);
written via the character list so that it evaluates inside the kernel. -/
def pyUpper (s : String) : String :=
  String.mk (s.data.map Char.toUpper)

/-- `x` is representable with at most two decimal digits (an exact
multiple of `1/100`).  All tier tables in the source consist of such
values, which makes Python's `round(tier, 2)` the identity on them. -/
def TwoDec (x : ℚ) : Prop := (x * 100).den = 1

instance : DecidablePred TwoDec := fun x => inferInstanceAs (Decidable ((x * 100).den = 1))

/-! ## `tier_snapper.generate_granular_tiers` (lines 13-213)

Each `while` loop of the source is bounded by `max_iterations = 10000`;
that bound is the structural fuel of the corresponding Lean recursion,
so the embedding terminates exactly where the source does. -/

/-- Step function of the `max_price < 1` loop (lines 35-59). -/
def granStepA (c : ℚ) : ℚ :=
  if |c - 0.9| < 0.001 then 0.95
  else if |c - 0.95| < 0.001 then 0.99
  else if |c - 0.99| < 0.001 then 1.0
  else if c < 0.9 then c + 0.10
  else if c < 2.0 then
    (if |c - (roundHalfEven c : ℚ)| < 0.001 then c + 0.09 else c + 0.10)
  else c + 0.10

/-- Step function of the `max_price < 100` loop (lines 61-92). -/
def granStepB (c : ℚ) : ℚ :=
  if |c - 0.89| < 0.001 then 0.9
  else if |c - 0.9| < 0.001 then 0.95
  else if |c - 0.95| < 0.001 then 0.99
  else if |c - 0.99| < 0.001 then 1.0
  else if c < 0.89 then c + 0.10
  else if c < 10 then
    (if |c - (roundHalfEven c : ℚ)| < 0.001 then c + 0.09 else c + 0.10)
  else
    (if |c - (roundHalfEven c : ℚ)| < 0.001 then c + 0.9 else (roundHalfEven c : ℚ) + 0.9)

/-- Whole-number cadence below 100: `9, 10, 15, 19, 20, 25, ...` (lines 102-112). -/
def granStepTens (c : ℚ) : ℚ :=
  let lastDigit := pyInt c % 10
  if lastDigit = 9 then c + 1
  else if lastDigit = 0 then c + 5
  else if lastDigit = 5 then c + 4
  else c + 1

/-- Whole-number cadence for 100-1000: `100, 150, 199, 200, ...` (lines 113-123). -/
def granStepHundreds (c : ℚ) : ℚ :=
  let lastTwo := pyInt c % 100
  if lastTwo = 99 then c + 1
  else if lastTwo = 0 then c + 50
  else if lastTwo = 50 then c + 49
  else c + 1

/-- Cadence for 1000-10000: `1000, 1500, 1900, 2000, ...` (lines 152-162). -/
def granStepThousands (c : ℚ) : ℚ :=
  let lastThree := pyInt c % 1000
  if lastThree = 900 then c + 100
  else if lastThree = 0 then c + 500
  else if lastThree = 500 then c + 400
  else c + 10

/-- Cadence for 10000+: `10000, 15000, 19000, 20000, ...` (lines 201-211). -/
def granStepTenThousands (c : ℚ) : ℚ :=
  let lastFour := pyInt c % 10000
  if lastFour = 9000 then c + 1000
  else if lastFour = 0 then c + 5000
  else if lastFour = 5000 then c + 4000
  else c + 100

/-- Step of the `max_price < 1000` loop (lines 99-123). -/
def granStepC (c : ℚ) : ℚ :=
  if c < 100 then granStepTens c else granStepHundreds c

/-- Step of the `max_price < 10000` loop (lines 129-162). -/
def granStepD (c : ℚ) : ℚ :=
  if c < 100 then granStepTens c
  else if c < 1000 then granStepHundreds c
  else granStepThousands c

/-- Step of the `max_price >= 10000` loop (lines 168-211). -/
def granStepE (c : ℚ) : ℚ :=
  if c < 100 then granStepTens c
  else if c < 1000 then granStepHundreds c
  else if c < 10000 then granStepThousands c
  else granStepTenThousands c

/-- The common shape of the five `while` loops of
`generate_granular_tiers`: `while current <= limit and current <= cap
and iterations < max_iterations`, appending `round(current, 2)` and
advancing by the branch's step function.  The fuel is the remaining
iteration budget. -/
def granLoop (step : ℚ → ℚ) (limit cap : ℚ) : ℚ → ℕ → List ℚ
  | _, 0 => []
  | c, fuel + 1 =>
    if c ≤ limit ∧ c ≤ cap then pyRound 2 c :: granLoop step limit cap (step c) fuel
    else []

/-- Ordered insertion that skips values already present: the building
block used to model Python's `sorted(list(set(tiers)))`, which returns
the strictly increasing enumeration of the distinct values. -/
def insertNoDup (x : ℚ) : List ℚ → List ℚ
  | [] => [x]
  | y :: ys =>
    if x < y then x :: y :: ys
    else if x = y then y :: ys
    else y :: insertNoDup x ys

/-- Python's `sorted(list(set(l)))`: the strictly increasing enumeration
of the distinct values of `l`. -/
def sortedDedup (l : List ℚ) : List ℚ :=
  l.foldr insertNoDup []

/-- `tier_snapper.generate_granular_tiers` (lines 13-213). -/
def generate_granular_tiers (max_price : ℚ) : List ℚ :=
  let limit := max_price * 1.5
  let tiers :=
    if max_price < 1 then granLoop granStepA limit 10 0.29 10000
    else if max_price < 100 then granLoop granStepB limit 100 0.29 10000
    else if max_price < 1000 then granLoop granStepC limit 1000 9 10000
    else if max_price < 10000 then granLoop granStepD limit 10000 9 10000
    else granLoop granStepE limit 100000 9 10000
  sortedDedup tiers

/-! ## Tier tables (`tier_snapper.py` lines 216-271) -/

/-- `BASE_TIER_MULTIPLIERS` (lines 218-220). -/
def BASE_TIER_MULTIPLIERS : List ℚ :=
  [0.99, 1.99, 2.99, 3.99, 4.99, 5.99, 6.99, 7.99, 9.99, 10.99, 12.99, 14.99,
   19.99, 24.99, 29.99, 39.99, 49.99, 54.99, 59.99, 64.99, 69.99, 74.99, 79.99,
   84.99, 89.99, 94.99, 99.99, 199.99]

def gbpTiers : List ℚ :=
  [0.79, 1.49, 1.99, 2.99, 3.99, 4.99, 5.99, 7.99, 9.99, 10.99, 12.99, 14.99,
   19.99, 24.99, 29.99, 39.99, 49.99, 54.99, 59.99, 64.99, 69.99, 74.99, 79.99,
   84.99, 89.99, 94.99, 99.99, 199.99]

def vndTiers : List ℚ :=
  [24000, 49000, 74000, 99000, 124000, 149000, 174000, 199000, 249000, 274000,
   324000, 374000, 499000, 624000, 749000, 999000, 1249000, 1374000, 1499000,
   1624000, 1749000, 1874000, 1999000, 2124000, 2249000, 2374000, 2499000, 4999000]

def krwTiers : List ℚ :=
  [1200, 2400, 3600, 4800, 6000, 7200, 8400, 9600, 12000, 13200, 15600, 18000,
   24000, 30000, 36000, 48000, 60000, 66000, 72000, 78000, 84000, 90000, 96000,
   102000, 108000, 114000, 120000, 240000]

def phpTiers : List ℚ :=
  [49, 99, 149, 199, 249, 299, 349, 399, 499, 549, 649, 749, 999, 1249, 1499,
   1999, 2499, 2749, 2999, 3249, 3499, 3749, 3999, 4249, 4499, 4749, 4999, 9999]

def inrTiers : List ℚ :=
  [79, 149, 199, 249, 299, 349, 399, 499, 599, 649, 799, 899, 1199, 1499, 1799,
   2399, 2999, 3299, 3599, 3899, 4199, 4499, 4799, 5099, 5399, 5699, 5999, 11999]

def thbTiers : List ℚ :=
  [35, 69, 99, 139, 169, 199, 229, 269, 339, 369, 439, 509, 679, 849, 1019,
   1359, 1699, 1869, 2039, 2209, 2379, 2549, 2719, 2889, 3059, 3229, 3399, 6799]

def myrTiers : List ℚ :=
  [3.99, 7.99, 11.99, 15.99, 19.99, 23.99, 27.99, 31.99, 39.99, 43.99, 51.99,
   59.99, 79.99, 99.99, 119.99, 159.99, 199.99, 219.99, 239.99, 259.99, 279.99,
   299.99, 319.99, 339.99, 359.99, 379.99, 399.99, 799.99]

def cnyTiers : List ℚ :=
  [6, 12, 18, 25, 31, 37, 43, 50, 62, 68, 81, 93, 124, 155, 186, 248, 310, 341,
   372, 403, 434, 465, 496, 527, 558, 589, 620, 1240]

def twdTiers : List ℚ :=
  [30, 60, 90, 120, 150, 180, 210, 240, 300, 330, 390, 450, 600, 750, 900,
   1200, 1500, 1650, 1800, 1950, 2100, 2250, 2400, 2550, 2700, 2850, 3000, 6000]

/-- The `TIER_DEFINITIONS` dictionary (lines 224-242), as the lookup
function `currency-code → Option tier-list`.  The `JPY`, `ILS` and `IDR`
entries are computed by `generate_granular_tiers` at module load, exactly
as in the source. -/
def TIER_DEFINITIONS (c : String) : Option (List ℚ) :=
  if c = "USD" then some BASE_TIER_MULTIPLIERS
  else if c = "EUR" then some BASE_TIER_MULTIPLIERS
  else if c = "GBP" then some gbpTiers
  else if c = "JPY" then some (generate_granular_tiers 230000)
  else if c = "ILS" then some (generate_granular_tiers 450)
  else if c = "IDR" then some (generate_granular_tiers 40000)
  else if c = "VND" then some vndTiers
  else if c = "KRW" then some krwTiers
  else if c = "PHP" then some phpTiers
  else if c = "INR" then some inrTiers
  else if c = "THB" then some thbTiers
  else if c = "MYR" then some myrTiers
  else if c = "CNY" then some cnyTiers
  else if c = "TWD" then some twdTiers
  else none

/-- `tier_snapper.get_tiers_for_currency` (lines 245-271). -/
def get_tiers_for_currency (currency : String) (reference_price : Option ℚ) : List ℚ :=
  let c := pyUpper currency
  match TIER_DEFINITIONS c with
  | some tiers => tiers
  | none =>
    match reference_price with
    | some rp =>
      if rp > 0 then generate_granular_tiers (rp * 200)
      else BASE_TIER_MULTIPLIERS
    | none => BASE_TIER_MULTIPLIERS

/-! ## `config.py` constants -/

def STASH_FEE_PERCENT : ℚ := 0.0

def STASH_FIXED_FEE : ℚ := 0.0

def TIER_SNAPPING_MODE : String := "up"

def APPLE_FEE_PERCENT : ℚ := 0.30

def EXCLUDED_COUNTRIES : List String := []

def PRICE_CHANGE_THRESHOLD : ℚ := 0.05

/-! ## `tier_snapper.make_nice_number` (lines 274-423)

The Python function is a cascade of early returns; fall-through to the
final fallback block (lines 408-423) is written out as `fallbackFinal`. -/

/-- `tier_snapper.make_nice_number` (lines 274-423). -/
def make_nice_number (price : ℚ) (mi : ℚ) : ℚ :=
  if price ≤ 0 then price
  else
    let fallbackFinal :=
      let nice := price + mi
      if price < 1 then pyRound 2 nice
      else if price < 100 then
        (let ip : ℚ := (pyInt nice : ℤ)
         if nice - ip < 0.5 then pyRound 2 (ip + 0.99) else pyRound 2 nice)
      else
        (let ip : ℚ := (pyInt nice : ℤ)
         if nice - ip < 0.5 then pyRound 2 (ip + 0.99) else pyRound 2 nice)
    let afterGe1 :=
      if price < 1 then
        let tryCeil :=
          let nice := (⌈price * 100⌉ : ℚ) / 100
          if nice - price ≤ mi then pyRound 2 nice else pyRound 2 (price + mi)
        if price < 0.99 then
          let d := 0.99 - price
          if price ≥ 0.50 then (0.99 : ℚ)
          else if d ≤ 0.10 then 0.99
          else if d ≤ mi then 0.99
          else tryCeil
        else tryCeil
      else if price < 10 then
        let nice := (⌈price⌉ : ℚ)
        if nice - price ≤ mi then pyRound 2 nice else fallbackFinal
      else if price < 100 then
        let next_int := ((pyInt price : ℤ) : ℚ) + 1
        if next_int - price ≤ mi then
          (let c99 := next_int + 0.99
           if c99 - price ≤ mi then pyRound 2 c99 else pyRound 2 next_int)
        else fallbackFinal
      else if price < 1000 then
        let ip := ((pyInt price : ℤ) : ℚ)
        let c99 := ip + 0.99
        if c99 > price ∧ c99 - price ≤ mi then pyRound 2 c99
        else
          let n99 := ip + 1 + 0.99
          if n99 - price ≤ mi then pyRound 2 n99
          else
            let nice := (⌈price / 5⌉ : ℚ) * 5
            if nice - price ≤ mi then pyRound 2 nice else fallbackFinal
      else if price < 10000 then
        let ip := ((pyInt price : ℤ) : ℚ)
        let c99 := ip + 0.99
        if c99 > price ∧ c99 - price ≤ mi then pyRound 2 c99
        else
          let n99 := ip + 1 + 0.99
          if n99 - price ≤ mi then pyRound 2 n99
          else
            let nice := (⌈price / 10⌉ : ℚ) * 10
            if nice - price ≤ mi then pyRound 2 nice else fallbackFinal
      else
        let ip := ((pyInt price : ℤ) : ℚ)
        let c99 := ip + 0.99
        if c99 > price ∧ c99 - price ≤ mi then pyRound 2 c99
        else
          let n99 := ip + 1 + 0.99
          if n99 - price ≤ mi then pyRound 2 n99
          else
            let nice := (⌈price / 100⌉ : ℚ) * 100
            if nice - price ≤ mi then pyRound 2 nice else fallbackFinal
    if price ≥ 1 then
      let ip := ((pyInt price : ℤ) : ℚ)
      let dec := price - ip
      let c99 := ip + 0.99
      if c99 > price ∧ c99 - price ≤ mi then pyRound 2 c99
      else if dec > 0.5 ∧ ip + 1 + 0.99 > price ∧ ip + 1 + 0.99 - price ≤ mi then
        pyRound 2 (ip + 1 + 0.99)
      else if ip + 0.9 > price ∧ ip + 0.9 - price ≤ mi then
        pyRound 1 (ip + 0.9)
      else if dec > 0.5 ∧ ip + 1 + 0.9 > price ∧ ip + 1 + 0.9 - price ≤ mi then
        pyRound 1 (ip + 1 + 0.9)
      else afterGe1
    else afterGe1

/-! ## `tier_snapper.snap_to_tier` (lines 426-569) -/

/-- The magnitude-dependent maximum increase of the `"up"` mode
(lines 448-475). -/
def maxIncreaseUp (price : ℚ) : ℚ :=
  if price < 1 then
    if 0.50 ≤ price ∧ price < 0.99 then (0.99 - price) + 0.01
    else if price < 0.50 then
      (if 0.99 - price ≤ 0.10 then (0.99 - price) + 0.01 else 0.02)
    else 0.02
  else if price < 10 then 1.0
  else if price < 100 then 2.0
  else if price < 1000 then 2.0
  else if price < 10000 then 2.0
  else min 2.0 (price * 0.0001)

/-- The `.99` / `.9`-ending test applied to a candidate value
(lines 487-490 and 506-509). -/
def endsIn99 (t : ℚ) : Bool :=
  let tr := pyRound 2 t
  let dec := tr - ((pyInt tr : ℤ) : ℚ)
  if |dec - 0.99| < 0.01 ∨ |dec - 0.9| < 0.01 then true else false

/-- One iteration of the tier scan of `"up"` mode (lines 502-516); the
state is `(best_99_tier, best_regular_tier)`, each paired implicitly
with its increase `tier - price`. -/
def tierScanStep (price mi : ℚ) (s : Option ℚ × Option ℚ) (tier : ℚ) : Option ℚ × Option ℚ :=
  if tier > price ∧ tier - price ≤ mi then
    if endsIn99 tier then
      match s.1 with
      | none => (some tier, s.2)
      | some b => if tier - price < b - price then (some tier, s.2) else s
    else
      match s.2 with
      | none => (s.1, some tier)
      | some b => if tier - price < b - price then (s.1, some tier) else s
  else s

/-- The tier scan of `"up"` mode over the whole tier list. -/
def tierScan (price mi : ℚ) (tiers : List ℚ) : Option ℚ × Option ℚ :=
  tiers.foldl (tierScanStep price mi) (none, none)

/-- The candidate nice number of the `"up"` branch (lines 479-485):
`make_nice_number`, re-run on a slightly bumped price when the first
attempt did not increase. -/
def snapUpNice (price mi : ℚ) : ℚ :=
  let n0 := make_nice_number price mi
  if n0 ≤ price then make_nice_number (price + min 0.01 mi) mi else n0

/-- Lines 487-529 of the `"up"` branch: return the nice number when it
has a `.99`/`.9` ending within the cap, otherwise the best tier of the
scan (preferring `.99` endings), otherwise the nice number again, forced
above the price. -/
def snapUpCore (price mi n1 : ℚ) (tiers : List ℚ) : ℚ :=
  if endsIn99 n1 = true ∧ n1 > price ∧ n1 - price ≤ mi then n1
  else
    match tierScan price mi tiers with
    | (some t, _) => pyRound 2 t
    | (none, some t) => pyRound 2 t
    | (none, none) => if n1 ≤ price then price + min 0.01 mi else n1

/-- The `"up"` branch of `snap_to_tier` (lines 447-529), for a price
that already passed the `price <= 0` early return. -/
def snapUp (price : ℚ) (tiers : List ℚ) : ℚ :=
  snapUpCore price (maxIncreaseUp price) (snapUpNice price (maxIncreaseUp price)) tiers

/-- The adjacent-pair search of the non-`"up"` modes (lines 542-550):
either an early return (the price equals a scanned tier) or the
`(lower_tier, upper_tier)` pair, or nothing. -/
def findPair (price : ℚ) : List ℚ → Option (Sum ℚ (ℚ × ℚ))
  | x :: y :: rest =>
    if x < price ∧ price < y then some (Sum.inr (x, y))
    else if price = x then some (Sum.inl x)
    else if price = y then some (Sum.inl y)
    else findPair price (y :: rest)
  | _ => none

/-- `min(tiers, key=lambda x: abs(x - price))` (line 554): Python's
`min` keeps the first element attaining the minimum. -/
def closestTier (price : ℚ) (t0 : ℚ) (rest : List ℚ) : ℚ :=
  rest.foldl (fun best x => if |x - price| < |best - price| then x else best) t0

/-- The non-`"up"` branch of `snap_to_tier` (lines 531-569).  `none`
models the `IndexError` that `tiers[0]` raises on an empty list. -/
def snapOther (price : ℚ) (tiers : List ℚ) (mode : String) : Option ℚ :=
  match tiers with
  | [] => none
  | t0 :: rest =>
    if price ≤ t0 then some t0
    else
      let last := rest.getLastD t0
      if price ≥ last then some last
      else
        match findPair price (t0 :: rest) with
        | some (Sum.inl t) => some t
        | some (Sum.inr (lo, hi)) =>
          if mode = "down" then some lo
          else some (if |price - lo| ≤ |price - hi| then lo else hi)
        | none => some (closestTier price t0 rest)

/-- `tier_snapper.snap_to_tier` (lines 426-569).  `mode = none` models
the Python default `mode=None`, resolved to `config.TIER_SNAPPING_MODE`
(`"up"`); so does an empty string, since `mode or config...` treats `""`
as falsy.  `none` in the result models an uncaught exception. -/
def snap_to_tier (price : ℚ) (currency : String) (mode : Option String) : Option ℚ :=
  if price ≤ 0 then some price
  else
    let m := match mode with
      | some s => if s = "" then TIER_SNAPPING_MODE else s
      | none => TIER_SNAPPING_MODE
    let tiers := get_tiers_for_currency currency (some price)
    if m = "up" then some (snapUp price tiers)
    else snapOther price tiers m

/-- The tier-resolution algorithm exactly as the specification words it
(spec 4.2, for comparison with the implementation): scan the tiers in
increasing order and return the first tier strictly greater than the
price; if the price exceeds every tier, return the maximum tier. -/
def resolveSpecC2 (price : ℚ) (tiers : List ℚ) : Option ℚ :=
  match tiers.find? (fun t => if price < t then true else false) with
  | some t => some t
  | none => tiers.getLast?

/-! ## `tax_calculator.py` -/

/-- The `TAX_RATES` dictionary (lines 13-84), as an association list. -/
def TAX_RATES : List (String × ℚ) :=
  [("AT", 0.20), ("BE", 0.21), ("BG", 0.20), ("HR", 0.25), ("CY", 0.19),
   ("CZ", 0.21), ("DK", 0.25), ("EE", 0.20), ("FI", 0.24), ("FR", 0.20),
   ("DE", 0.19), ("GR", 0.24), ("HU", 0.27), ("IE", 0.23), ("IT", 0.22),
   ("LV", 0.21), ("LT", 0.21), ("LU", 0.17), ("MT", 0.18), ("NL", 0.21),
   ("PL", 0.23), ("PT", 0.23), ("RO", 0.19), ("SK", 0.20), ("SI", 0.22),
   ("ES", 0.21), ("SE", 0.25), ("GB", 0.20), ("AU", 0.10), ("NZ", 0.15),
   ("ZA", 0.15), ("BR", 0.17), ("AR", 0.21), ("CL", 0.19), ("CO", 0.19),
   ("MX", 0.16), ("PE", 0.18), ("US", 0.0), ("CA", 0.0), ("HK", 0.0),
   ("SG", 0.0), ("AE", 0.0), ("QA", 0.0), ("KW", 0.0), ("BH", 0.0),
   ("OM", 0.0), ("SA", 0.0), ("JP", 0.10), ("KR", 0.10), ("IN", 0.18),
   ("CN", 0.13)]

/-- `VAT_INCLUSIVE_COUNTRIES` (lines 87-91). -/
def VAT_INCLUSIVE_COUNTRIES : List String :=
  ["AT", "BE", "BG", "HR", "CY", "CZ", "DK", "EE", "FI", "FR", "DE", "GR",
   "HU", "IE", "IT", "LV", "LT", "LU", "MT", "NL", "PL", "PT", "RO", "SK",
   "SI", "ES", "SE", "GB", "AU", "NZ", "ZA", "BR", "AR", "CL", "CO", "MX",
   "PE", "JP", "KR", "IN", "CN"]

/-- `VAT_EXCLUSIVE_COUNTRIES` (line 94). -/
def VAT_EXCLUSIVE_COUNTRIES : List String := ["US", "CA"]

/-- `tax_calculator.get_tax_rate` (lines 97-108): `TAX_RATES.get(cc, 0.0)`
after upper-casing. -/
def get_tax_rate (country_code : String) : ℚ :=
  ((TAX_RATES.lookup (pyUpper country_code)).getD 0)

/-- `tax_calculator.is_vat_inclusive` (lines 111-122). -/
def is_vat_inclusive (country_code : String) : Bool :=
  (VAT_INCLUSIVE_COUNTRIES.contains (pyUpper country_code))

/-- `tax_calculator.calculate_tax` (lines 125-154): returns
`(tax_amount, net_price_before_tax)`. -/
def calculate_tax (price : ℚ) (country_code : String) : ℚ × ℚ :=
  let cc := pyUpper country_code
  let tax_rate := get_tax_rate cc
  if is_vat_inclusive cc then
    if tax_rate = 0 then (0, price)
    else
      let net_price := price / (1 + tax_rate)
      (price - net_price, net_price)
  else
    (price * tax_rate, price)

/-! ## `price_stability.py` -/

/-- The human-readable reason strings of `should_update_price`
(lines 38-55), modelled as tags; the source formats them with the
percentage change interpolated, which only affects logging. -/
inductive UpdateReason where
  | firstTime
  | invalidPrice
  | decreased
  | significantIncrease
  | belowThreshold
deriving DecidableEq

/-- `price_stability.should_update_price` (lines 13-55).  The
`price_tier` and `currency` arguments are, as in the source, unused. -/
def should_update_price (new_price : ℚ) (existing_price : Option ℚ)
    (price_tier : ℚ) (currency : String) : Bool × UpdateReason :=
  match existing_price with
  | none => (true, .firstTime)
  | some existing =>
    if new_price ≤ 0 ∨ existing ≤ 0 then (true, .invalidPrice)
    else
      if new_price < existing then (true, .decreased)
      else if |new_price - existing| / existing > PRICE_CHANGE_THRESHOLD then
        (true, .significantIncrease)
      else (false, .belowThreshold)

/-- The output dictionary of `price_converter.convert_sku_for_country`
(lines 239-255).  `Net_vs_Apple` is stored by the source as a signed
percentage string formatted to one decimal; the model keeps the
underlying number. -/
structure PriceRecord where
  Country : String
  Country_Name : String
  Currency : String
  Price_Tier : ℚ
  AppleStoreSku : String
  GooglePlaySku : String
  Local_Price : ℚ
  User_Pays : ℚ
  Stash_Price : ℚ
  VAT_Rate : ℚ
  VAT_Amount : ℚ
  Gross_USD : ℚ
  Stash_Fee_USD : ℚ
  Net_USD : ℚ
  Net_vs_Apple : ℚ
deriving DecidableEq

/-- `price_stability.apply_price_stability` (lines 58-114).  The
`existing_prices` dictionary is the lookup function from the
`"country:sku"` key; in-place mutation of the input dictionary is
modelled by returning the updated record.  The `.getD 0` in the hold
branch is only reached when the gate held, in which case the previous
price exists (`should_update_price` adopts whenever it is `none`). -/
def apply_price_stability (new_price_data : PriceRecord)
    (existing_prices : String → Option ℚ) : PriceRecord × Bool :=
  let lookup_key := new_price_data.Country ++ ":" ++ new_price_data.AppleStoreSku
  let existing_price := existing_prices lookup_key
  let su := should_update_price new_price_data.User_Pays existing_price
    new_price_data.Price_Tier new_price_data.Currency
  if su.1 = false then
    ({ new_price_data with User_Pays := existing_price.getD 0 }, false)
  else
    (new_price_data, true)

/-! ## `country_names.py`, `exchange_rates.py` and `price_converter.py` -/

/-- The `COUNTRY_NAMES` dictionary (`country_names.py` lines 5-66). -/
def COUNTRY_NAMES : List (String × String) :=
  [("US", "United States"), ("GB", "United Kingdom"), ("DE", "Germany"),
   ("FR", "France"), ("IT", "Italy"), ("ES", "Spain"), ("NL", "Netherlands"),
   ("BE", "Belgium"), ("AT", "Austria"), ("CH", "Switzerland"), ("SE", "Sweden"),
   ("NO", "Norway"), ("DK", "Denmark"), ("PL", "Poland"), ("CZ", "Czech Republic"),
   ("IE", "Ireland"), ("PT", "Portugal"), ("GR", "Greece"), ("FI", "Finland"),
   ("HU", "Hungary"), ("RO", "Romania"), ("SK", "Slovakia"), ("BG", "Bulgaria"),
   ("HR", "Croatia"), ("JP", "Japan"), ("CN", "China"), ("KR", "South Korea"),
   ("IN", "India"), ("AU", "Australia"), ("NZ", "New Zealand"), ("CA", "Canada"),
   ("MX", "Mexico"), ("BR", "Brazil"), ("AR", "Argentina"), ("CL", "Chile"),
   ("CO", "Colombia"), ("PE", "Peru"), ("ZA", "South Africa"),
   ("AE", "United Arab Emirates"), ("SA", "Saudi Arabia"), ("IL", "Israel"),
   ("TR", "Turkey"), ("RU", "Russia"), ("SG", "Singapore"), ("HK", "Hong Kong"),
   ("TW", "Taiwan"), ("TH", "Thailand"), ("MY", "Malaysia"), ("ID", "Indonesia"),
   ("PH", "Philippines"), ("VN", "Vietnam"), ("QA", "Qatar"), ("KW", "Kuwait"),
   ("BH", "Bahrain"), ("OM", "Oman"), ("EG", "Egypt"), ("NG", "Nigeria"),
   ("KE", "Kenya"), ("GH", "Ghana"), ("MA", "Morocco")]

/-- `country_names.get_country_name` (lines 68-79): name when known,
otherwise the code itself. -/
def get_country_name (country_code : String) : String :=
  (COUNTRY_NAMES.lookup (pyUpper country_code)).getD country_code

/-- `ExchangeRateClient.get_rate` (`exchange_rates.py` lines 145-166)
over a pre-fetched rates dictionary: missing currencies fall back to a
rate of 1.0 with a warning. -/
def get_rate (currency : String) (rates : String → Option ℚ) : ℚ :=
  (rates (pyUpper currency)).getD 1

/-- `ExchangeRateClient.convert_usd_to_currency` (lines 168-184). -/
def convert_usd_to_currency (usd_amount : ℚ) (currency : String)
    (rates : String → Option ℚ) : ℚ :=
  usd_amount * get_rate currency rates

/-- `ExchangeRateClient.convert_currency_to_usd` (lines 186-204):
division by the rate, with 0.0 when the rate is zero. -/
def convert_currency_to_usd (amount : ℚ) (currency : String)
    (rates : String → Option ℚ) : ℚ :=
  let rate := get_rate currency rates
  if rate = 0 then 0 else amount / rate

/-- `PriceConverter.calculate_stash_fees` (`price_converter.py`
lines 64-76). -/
def calculate_stash_fees (net_before_fees : ℚ) : ℚ :=
  net_before_fees * STASH_FEE_PERCENT + STASH_FIXED_FEE

/-- `PriceConverter.calculate_apple_net` (lines 78-90). -/
def calculate_apple_net (gross_usd : ℚ) (is_small_business : Bool) : ℚ :=
  let fee_percent := if is_small_business then (0.15 : ℚ) else APPLE_FEE_PERCENT
  gross_usd * (1 - fee_percent)

/-- Modelled from the spec: `STASH_PRE_TAX_COUNTRIES` is referenced by
`scripts/verify_stash_prices.py` but its definition (in
`tax_calculator.py`) is not present under `src/`.  Per spec 4.3 and the
callers, the processor ("Stash") adds tax on top for the United States,
Canada and Brazil. -/
def STASH_PRE_TAX_COUNTRIES : List String := ["US", "CA", "BR"]

/-- Modelled from the spec: `tax_calculator.get_stash_price` is called
by `price_converter.py` (line 237) and `scripts/verify_stash_prices.py`
but its definition is not present under `src/`.  Per spec 4.3: for a
processor-pre-tax, VAT-inclusive country the remittance price is
`userPays / (1 + rate)` (tax stripped back out); for every other country
it is `userPays` unchanged. -/
def get_stash_price (user_pays : ℚ) (country_code : String) : ℚ :=
  let cc := pyUpper country_code
  if STASH_PRE_TAX_COUNTRIES.contains cc && is_vat_inclusive cc then
    user_pays / (1 + get_tax_rate cc)
  else user_pays

/-- A SKU row of the Config sheet: `AppleStoreSku`, `GooglePlaySku` and
the decimal string `Cost`.  `Cost` models the result of Python's
`float(sku["Cost"])` (line 112): `some` the parsed value, or `none` when
the string is malformed and `float` raises (the exception that the
converter catches). -/
structure Sku where
  AppleStoreSku : String
  GooglePlaySku : String
  Cost : Option ℚ
deriving DecidableEq

/-- The module-level `APPLE_PRICING_MAP` lookup (lines 120-126), over
the map loaded from `apple_pricing_map.json` (a data file not present in
the repository; the loader yields `{}` when the file is missing).  The
Python guard `if APPLE_PRICING_MAP and usd_price in APPLE_PRICING_MAP`
tests non-emptiness and key membership. -/
def applePriceLookup (appleMap : List (ℚ × List (String × ℚ)))
    (usd_price : ℚ) (currency : String) : Option ℚ :=
  if appleMap.isEmpty then none
  else
    match appleMap.lookup usd_price with
    | some inner => inner.lookup currency
    | none => none

/-- The magnitude-banded "next nice number" chain of the visibility
correction block (lines 166-197). -/
def fallbackNice (raw : ℚ) : ℚ :=
  if raw < 1 then
    (let v := (⌈raw * 100⌉ : ℚ) / 100
     if v ≤ raw then v + 0.01 else v)
  else if raw < 10 then
    (let v := (⌈raw⌉ : ℚ)
     if v ≤ raw then v + 1 else v)
  else if raw < 100 then
    (let v := (⌈raw⌉ : ℚ)
     if v ≤ raw then v + 1 else v)
  else if raw < 1000 then
    (let v := (⌈raw / 5⌉ : ℚ) * 5
     if v ≤ raw then v + 5 else v)
  else if raw < 10000 then
    (let v := (⌈raw / 10⌉ : ℚ) * 10
     if v ≤ raw then v + 10 else v)
  else
    (let v := (⌈raw / 100⌉ : ℚ) * 100
     if v ≤ raw then v + 100 else v)

/-- The defensive correction block of `convert_sku_for_country`
(lines 152-197), entered when no Apple price was used and the snapped
visibility price did not exceed the raw price: first tier at least the
raw price, else the banded nice number. -/
def correctVisibility (raw : ℚ) (currency : String) (v0 : ℚ) : ℚ :=
  let tiers := get_tiers_for_currency currency (some raw)
  let v1 :=
    match tiers.find? (fun t => if raw ≤ t then true else false) with
    | some t => t
    | none => v0
  if v1 ≤ raw then fallbackNice raw else v1

/-- Steps 2-3 of `convert_sku_for_country` (lines 120-147): the Apple
price when present and not below the raw conversion, otherwise the tier
snap of the raw price in `"up"` mode. -/
def visibilityCandidate (apple_price : Option ℚ) (raw : ℚ) (currency : String) : Option ℚ :=
  match apple_price with
  | some ap =>
    if ap ≥ raw then pure ap
    else snap_to_tier raw currency (some "up")
  | none => snap_to_tier raw currency (some "up")

/-- `PriceConverter.convert_sku_for_country` (lines 92-259).  The
`try/except` that catches any per-pair failure and returns `None`
(lines 111, 257-259) is the `Option` monad; the one fallible step of the
body is the parse of the SKU's cost string. -/
def convert_sku_for_country (sku : Sku) (country_code : String) (currency : String)
    (rates : String → Option ℚ) (appleMap : List (ℚ × List (String × ℚ))) :
    Option PriceRecord := do
  let usd_price ← sku.Cost
  let local_price_raw := convert_usd_to_currency usd_price currency rates
  let apple_price := applePriceLookup appleMap usd_price currency
  let visibility_price0 ← visibilityCandidate apple_price local_price_raw currency
  let visibility_price :=
    if apple_price = none ∧ visibility_price0 ≤ local_price_raw then
      correctVisibility local_price_raw currency visibility_price0
    else visibility_price0
  let vat_rate := get_tax_rate country_code
  let tax := calculate_tax visibility_price country_code
  let stash_fee_local := calculate_stash_fees tax.2
  let net_revenue_local := tax.2 - stash_fee_local
  let gross_usd := convert_currency_to_usd visibility_price currency rates
  let stash_fee_usd := convert_currency_to_usd stash_fee_local currency rates
  let net_usd := convert_currency_to_usd net_revenue_local currency rates
  let apple_net := calculate_apple_net gross_usd false
  let net_vs_apple := if apple_net > 0 then (net_usd - apple_net) / apple_net * 100 else 0
  let user_pays :=
    if is_vat_inclusive country_code then visibility_price
    else visibility_price + tax.1
  let stash_price := get_stash_price user_pays country_code
  pure
    { Country := country_code
      Country_Name := get_country_name country_code
      Currency := currency
      Price_Tier := pyRound 2 usd_price
      AppleStoreSku := sku.AppleStoreSku
      GooglePlaySku := sku.GooglePlaySku
      Local_Price := pyRound 2 local_price_raw
      User_Pays := pyRound 2 user_pays
      Stash_Price := pyRound 2 stash_price
      VAT_Rate := pyRound 1 (vat_rate * 100)
      VAT_Amount := pyRound 2 tax.1
      Gross_USD := pyRound 2 gross_usd
      Stash_Fee_USD := pyRound 2 stash_fee_usd
      Net_USD := pyRound 2 net_usd
      Net_vs_Apple := net_vs_apple }

/-- The inner loop of `process_all_skus_with_rates` (lines 298-313):
iterate the country map, skip excluded countries, drop pairs whose
conversion returned `None`, append the rest. -/
def processCountries (sku : Sku) (rates : String → Option ℚ)
    (appleMap : List (ℚ × List (String × ℚ))) :
    List (String × String) → List PriceRecord → List PriceRecord
  | [], acc => acc
  | (country_code, currency) :: rest, acc =>
    if country_code ∈ EXCLUDED_COUNTRIES then
      processCountries sku rates appleMap rest acc
    else
      match convert_sku_for_country sku country_code currency rates appleMap with
      | some r => processCountries sku rates appleMap rest (acc ++ [r])
      | none => processCountries sku rates appleMap rest acc

/-- The outer loop of `process_all_skus_with_rates` over the SKU list. -/
def processSkus (rates : String → Option ℚ) (appleMap : List (ℚ × List (String × ℚ)))
    (pairs : List (String × String)) :
    List Sku → List PriceRecord → List PriceRecord
  | [], acc => acc
  | sku :: rest, acc =>
    processSkus rates appleMap pairs rest (processCountries sku rates appleMap pairs acc)

/-- `PriceConverter.process_all_skus_with_rates` (lines 276-316); the
SKU list stands for the result of `read_config_sheet`, and the early
return on an empty list (lines 289-291) is kept. -/
def process_all_skus_with_rates (skus : List Sku)
    (country_currency_map : List (String × String))
    (rates : String → Option ℚ) (appleMap : List (ℚ × List (String × ℚ))) :
    List PriceRecord :=
  if skus.isEmpty then []
  else processSkus rates appleMap country_currency_map skus []

/- `Rat.ofScientific`, `Rat.mul`, `Rat.inv`, `Rat.add` and `Rat.sub` are
`@[irreducible]` in Batteries, which blocks kernel evaluation of concrete
rational computations by `decide`; restore the default reducibility from
here on, where concrete evaluation of the embedded code is needed. -/
attribute [local semireducible] Rat.ofScientific Rat.mul Rat.inv Rat.add Rat.sub

/-! ## Theorems -/

theorem twoDec_pyRound (x : ℚ) : TwoDec (pyRound 2 x) := by
  unfold TwoDec pyRound
  have : ((roundHalfEven (x * 10 ^ 2) : ℚ) / 10 ^ 2) * 100 = (roundHalfEven (x * 10 ^ 2) : ℚ) := by
    rw [div_mul_eq_mul_div]
    norm_num
  rw [this]
  exact Rat.den_intCast _

theorem pyRound_eq_of_twoDec {x : ℚ} (h : TwoDec x) : pyRound 2 x = x := by
  unfold TwoDec at h
  unfold pyRound roundHalfEven
  have hx : x * 10 ^ 2 = ((x * 100).num : ℚ) := by
    have := Rat.num_div_den (x * 100)
    rw [h] at this
    push_cast at this
    rw [div_one] at this
    rw [show ((10 : ℚ) ^ 2) = 100 by norm_num, this]
  rw [hx]
  have hfl : ⌊((x * 100).num : ℚ)⌋ = (x * 100).num := Int.floor_intCast _
  simp only [hfl, sub_self]
  norm_num
  have : x * 100 = ((x * 100).num : ℚ) := by
    conv_lhs => rw [← Rat.num_div_den (x * 100)]
    rw [h]
    push_cast
    rw [div_one]
  rw [← this]
  field_simp

/-! ## Lemmas about tier generation -/

theorem insertNoDup_ne_nil (x : ℚ) (l : List ℚ) : insertNoDup x l ≠ [] := by
  cases l with
  | nil => simp [insertNoDup]
  | cons y ys =>
    unfold insertNoDup
    split
    · simp
    · split <;> simp

theorem mem_insertNoDup {y x : ℚ} {l : List ℚ} :
    y ∈ insertNoDup x l ↔ y = x ∨ y ∈ l := by
  induction l with
  | nil => simp [insertNoDup]
  | cons z zs ih =>
    unfold insertNoDup
    split
    · simp [or_comm, or_assoc]
      try tauto
    · split
      · rename_i hlt heq
        subst heq
        simp
        try tauto
      · simp [ih]
        try tauto

theorem pairwise_insertNoDup {x : ℚ} {l : List ℚ}
    (h : l.Pairwise (· < ·)) : (insertNoDup x l).Pairwise (· < ·) := by
  induction l with
  | nil => simp [insertNoDup]
  | cons z zs ih =>
    rw [List.pairwise_cons] at h
    unfold insertNoDup
    split
    · rename_i hlt
      rw [List.pairwise_cons]
      constructor
      · intro b hb
        rcases List.mem_cons.mp hb with rfl | hb
        · exact hlt
        · exact lt_trans hlt (h.1 b hb)
      · exact List.pairwise_cons.mpr h
    · split
      · exact List.pairwise_cons.mpr h
      · rename_i hnlt hne
        rw [List.pairwise_cons]
        refine ⟨?_, ih h.2⟩
        intro b hb
        rcases mem_insertNoDup.mp hb with rfl | hb
        · exact lt_of_le_of_ne (not_lt.mp hnlt) (Ne.symm hne)
        · exact h.1 b hb

theorem pairwise_sortedDedup (l : List ℚ) : (sortedDedup l).Pairwise (· < ·) := by
  induction l with
  | nil => simp [sortedDedup]
  | cons x xs ih => exact pairwise_insertNoDup ih

theorem mem_sortedDedup {y : ℚ} {l : List ℚ} :
    y ∈ sortedDedup l ↔ y ∈ l := by
  induction l with
  | nil => simp [sortedDedup]
  | cons x xs ih =>
    show y ∈ insertNoDup x (sortedDedup xs) ↔ _
    rw [mem_insertNoDup, ih]
    simp

theorem sortedDedup_cons_ne_nil (x : ℚ) (l : List ℚ) : sortedDedup (x :: l) ≠ [] :=
  insertNoDup_ne_nil x (sortedDedup l)

theorem granLoop_twoDec {step : ℚ → ℚ} {limit cap c : ℚ} {fuel : ℕ} :
    ∀ x ∈ granLoop step limit cap c fuel, TwoDec x := by
  induction fuel generalizing c with
  | zero => simp [granLoop]
  | succ n ih =>
    unfold granLoop
    split
    · intro x hx
      rcases List.mem_cons.mp hx with rfl | hx
      · exact twoDec_pyRound c
      · exact ih x hx
    · simp

theorem generate_granular_tiers_twoDec {m : ℚ} :
    ∀ x ∈ generate_granular_tiers m, TwoDec x := by
  intro x hx
  unfold generate_granular_tiers at hx
  rw [mem_sortedDedup] at hx
  split at hx <;> first
    | exact granLoop_twoDec x hx
    | (split at hx <;> first
        | exact granLoop_twoDec x hx
        | (split at hx <;> first
            | exact granLoop_twoDec x hx
            | (split at hx <;> exact granLoop_twoDec x hx)))

theorem generate_granular_tiers_pairwise (m : ℚ) :
    (generate_granular_tiers m).Pairwise (· < ·) := by
  unfold generate_granular_tiers
  exact pairwise_sortedDedup _

theorem granLoop_cons {step : ℚ → ℚ} {limit cap c : ℚ} (fuel : ℕ)
    (h1 : c ≤ limit) (h2 : c ≤ cap) :
    granLoop step limit cap c (fuel + 1)
      = pyRound 2 c :: granLoop step limit cap (step c) fuel := by
  conv_lhs => unfold granLoop
  rw [if_pos ⟨h1, h2⟩]

theorem generate_granular_tiers_ne_nil {m : ℚ} (h : 29/150 ≤ m) :
    generate_granular_tiers m ≠ [] := by
  unfold generate_granular_tiers
  split
  · rename_i h1
    show sortedDedup (granLoop granStepA (m * 1.5) 10 0.29 10000) ≠ []
    rw [show (10000 : ℕ) = 9999 + 1 from rfl,
        granLoop_cons 9999 (by norm_num; linarith) (by norm_num)]
    exact sortedDedup_cons_ne_nil _ _
  · rename_i h1
    push_neg at h1
    split
    · show sortedDedup (granLoop granStepB (m * 1.5) 100 0.29 10000) ≠ []
      rw [show (10000 : ℕ) = 9999 + 1 from rfl,
          granLoop_cons 9999 (by norm_num; linarith) (by norm_num)]
      exact sortedDedup_cons_ne_nil _ _
    · rename_i h2
      push_neg at h2
      split
      · show sortedDedup (granLoop granStepC (m * 1.5) 1000 9 10000) ≠ []
        rw [show (10000 : ℕ) = 9999 + 1 from rfl,
            granLoop_cons 9999 (by norm_num; linarith) (by norm_num)]
        exact sortedDedup_cons_ne_nil _ _
      · rename_i h3
        push_neg at h3
        split
        · show sortedDedup (granLoop granStepD (m * 1.5) 10000 9 10000) ≠ []
          rw [show (10000 : ℕ) = 9999 + 1 from rfl,
              granLoop_cons 9999 (by norm_num; linarith) (by norm_num)]
          exact sortedDedup_cons_ne_nil _ _
        · rename_i h4
          push_neg at h4
          show sortedDedup (granLoop granStepE (m * 1.5) 100000 9 10000) ≠ []
          rw [show (10000 : ℕ) = 9999 + 1 from rfl,
              granLoop_cons 9999 (by norm_num; linarith) (by norm_num)]
          exact sortedDedup_cons_ne_nil _ _

/-- Case analysis of the `TIER_DEFINITIONS` lookup. -/
theorem TIER_DEFINITIONS_eq_some {s : String} {l : List ℚ}
    (h : TIER_DEFINITIONS s = some l) :
    l = BASE_TIER_MULTIPLIERS ∨ l = gbpTiers ∨
    l = generate_granular_tiers 230000 ∨ l = generate_granular_tiers 450 ∨
    l = generate_granular_tiers 40000 ∨ l = vndTiers ∨ l = krwTiers ∨
    l = phpTiers ∨ l = inrTiers ∨ l = thbTiers ∨ l = myrTiers ∨
    l = cnyTiers ∨ l = twdTiers := by
  unfold TIER_DEFINITIONS at h
  by_cases c1 : s = "USD"
  · rw [if_pos c1] at h
    simp only [Option.some.injEq] at h
    exact Or.inl h.symm
  rw [if_neg c1] at h
  by_cases c2 : s = "EUR"
  · rw [if_pos c2] at h
    simp only [Option.some.injEq] at h
    exact Or.inl h.symm
  rw [if_neg c2] at h
  by_cases c3 : s = "GBP"
  · rw [if_pos c3] at h
    simp only [Option.some.injEq] at h
    exact Or.inr (Or.inl h.symm)
  rw [if_neg c3] at h
  by_cases c4 : s = "JPY"
  · rw [if_pos c4] at h
    simp only [Option.some.injEq] at h
    exact Or.inr (Or.inr (Or.inl h.symm))
  rw [if_neg c4] at h
  by_cases c5 : s = "ILS"
  · rw [if_pos c5] at h
    simp only [Option.some.injEq] at h
    exact Or.inr (Or.inr (Or.inr (Or.inl h.symm)))
  rw [if_neg c5] at h
  by_cases c6 : s = "IDR"
  · rw [if_pos c6] at h
    simp only [Option.some.injEq] at h
    exact Or.inr (Or.inr (Or.inr (Or.inr (Or.inl h.symm))))
  rw [if_neg c6] at h
  by_cases c7 : s = "VND"
  · rw [if_pos c7] at h
    simp only [Option.some.injEq] at h
    exact Or.inr (Or.inr (Or.inr (Or.inr (Or.inr (Or.inl h.symm)))))
  rw [if_neg c7] at h
  by_cases c8 : s = "KRW"
  · rw [if_pos c8] at h
    simp only [Option.some.injEq] at h
    exact Or.inr (Or.inr (Or.inr (Or.inr (Or.inr (Or.inr (Or.inl h.symm))))))
  rw [if_neg c8] at h
  by_cases c9 : s = "PHP"
  · rw [if_pos c9] at h
    simp only [Option.some.injEq] at h
    exact Or.inr (Or.inr (Or.inr (Or.inr (Or.inr (Or.inr (Or.inr (Or.inl h.symm)))))))
  rw [if_neg c9] at h
  by_cases c10 : s = "INR"
  · rw [if_pos c10] at h
    simp only [Option.some.injEq] at h
    exact Or.inr (Or.inr (Or.inr (Or.inr (Or.inr (Or.inr (Or.inr (Or.inr (Or.inl h.symm))))))))
  rw [if_neg c10] at h
  by_cases c11 : s = "THB"
  · rw [if_pos c11] at h
    simp only [Option.some.injEq] at h
    exact Or.inr (Or.inr (Or.inr (Or.inr (Or.inr (Or.inr (Or.inr (Or.inr (Or.inr (Or.inl h.symm)))))))))
  rw [if_neg c11] at h
  by_cases c12 : s = "MYR"
  · rw [if_pos c12] at h
    simp only [Option.some.injEq] at h
    exact Or.inr (Or.inr (Or.inr (Or.inr (Or.inr (Or.inr (Or.inr (Or.inr (Or.inr (Or.inr (Or.inl h.symm))))))))))
  rw [if_neg c12] at h
  by_cases c13 : s = "CNY"
  · rw [if_pos c13] at h
    simp only [Option.some.injEq] at h
    exact Or.inr (Or.inr (Or.inr (Or.inr (Or.inr (Or.inr (Or.inr (Or.inr (Or.inr (Or.inr (Or.inr (Or.inl h.symm)))))))))))
  rw [if_neg c13] at h
  by_cases c14 : s = "TWD"
  · rw [if_pos c14] at h
    simp only [Option.some.injEq] at h
    exact Or.inr (Or.inr (Or.inr (Or.inr (Or.inr (Or.inr (Or.inr (Or.inr (Or.inr (Or.inr (Or.inr (Or.inr (h.symm))))))))))))
  rw [if_neg c14] at h
  exact Option.noConfusion h

/-- The ten literal tier tables: two-decimal entries, strictly
increasing, non-empty. -/
theorem curated_tables_ok :
    ((∀ x ∈ BASE_TIER_MULTIPLIERS, TwoDec x) ∧ BASE_TIER_MULTIPLIERS.Pairwise (· < ·) ∧ BASE_TIER_MULTIPLIERS ≠ []) ∧
    ((∀ x ∈ gbpTiers, TwoDec x) ∧ gbpTiers.Pairwise (· < ·) ∧ gbpTiers ≠ []) ∧
    ((∀ x ∈ vndTiers, TwoDec x) ∧ vndTiers.Pairwise (· < ·) ∧ vndTiers ≠ []) ∧
    ((∀ x ∈ krwTiers, TwoDec x) ∧ krwTiers.Pairwise (· < ·) ∧ krwTiers ≠ []) ∧
    ((∀ x ∈ phpTiers, TwoDec x) ∧ phpTiers.Pairwise (· < ·) ∧ phpTiers ≠ []) ∧
    ((∀ x ∈ inrTiers, TwoDec x) ∧ inrTiers.Pairwise (· < ·) ∧ inrTiers ≠ []) ∧
    ((∀ x ∈ thbTiers, TwoDec x) ∧ thbTiers.Pairwise (· < ·) ∧ thbTiers ≠ []) ∧
    ((∀ x ∈ myrTiers, TwoDec x) ∧ myrTiers.Pairwise (· < ·) ∧ myrTiers ≠ []) ∧
    ((∀ x ∈ cnyTiers, TwoDec x) ∧ cnyTiers.Pairwise (· < ·) ∧ cnyTiers ≠ []) ∧
    ((∀ x ∈ twdTiers, TwoDec x) ∧ twdTiers.Pairwise (· < ·) ∧ twdTiers ≠ []) := by
  decide

theorem get_tiers_twoDec (c : String) (r : Option ℚ) :
    ∀ t ∈ get_tiers_for_currency c r, TwoDec t := by
  intro t ht
  unfold get_tiers_for_currency at ht
  rcases hdef : TIER_DEFINITIONS (pyUpper c) with _ | l
  · simp only [hdef] at ht
    split at ht
    · split at ht
      · exact generate_granular_tiers_twoDec t ht
      · exact curated_tables_ok.1.1 t ht
    · exact curated_tables_ok.1.1 t ht
  · simp only [hdef] at ht
    rcases TIER_DEFINITIONS_eq_some hdef with
      h | h | h | h | h | h | h | h | h | h | h | h | h <;> subst h
    · exact curated_tables_ok.1.1 t ht
    · exact curated_tables_ok.2.1.1 t ht
    · exact generate_granular_tiers_twoDec t ht
    · exact generate_granular_tiers_twoDec t ht
    · exact generate_granular_tiers_twoDec t ht
    · exact curated_tables_ok.2.2.1.1 t ht
    · exact curated_tables_ok.2.2.2.1.1 t ht
    · exact curated_tables_ok.2.2.2.2.1.1 t ht
    · exact curated_tables_ok.2.2.2.2.2.1.1 t ht
    · exact curated_tables_ok.2.2.2.2.2.2.1.1 t ht
    · exact curated_tables_ok.2.2.2.2.2.2.2.1.1 t ht
    · exact curated_tables_ok.2.2.2.2.2.2.2.2.1.1 t ht
    · exact curated_tables_ok.2.2.2.2.2.2.2.2.2.1 t ht

theorem get_tiers_pairwise (c : String) (r : Option ℚ) :
    (get_tiers_for_currency c r).Pairwise (· < ·) := by
  unfold get_tiers_for_currency
  rcases hdef : TIER_DEFINITIONS (pyUpper c) with _ | l
  · simp only [hdef]
    split
    · split
      · exact generate_granular_tiers_pairwise _
      · exact curated_tables_ok.1.2.1
    · exact curated_tables_ok.1.2.1
  · simp only [hdef]
    rcases TIER_DEFINITIONS_eq_some hdef with
      h | h | h | h | h | h | h | h | h | h | h | h | h <;> subst h
    · exact curated_tables_ok.1.2.1
    · exact curated_tables_ok.2.1.2.1
    · exact generate_granular_tiers_pairwise _
    · exact generate_granular_tiers_pairwise _
    · exact generate_granular_tiers_pairwise _
    · exact curated_tables_ok.2.2.1.2.1
    · exact curated_tables_ok.2.2.2.1.2.1
    · exact curated_tables_ok.2.2.2.2.1.2.1
    · exact curated_tables_ok.2.2.2.2.2.1.2.1
    · exact curated_tables_ok.2.2.2.2.2.2.1.2.1
    · exact curated_tables_ok.2.2.2.2.2.2.2.1.2.1
    · exact curated_tables_ok.2.2.2.2.2.2.2.2.1.2.1
    · exact curated_tables_ok.2.2.2.2.2.2.2.2.2.2.1

theorem get_tiers_ne_nil_of_curated (c : String) (r : Option ℚ) (l : List ℚ)
    (hdef : TIER_DEFINITIONS (pyUpper c) = some l) :
    get_tiers_for_currency c r ≠ [] := by
  unfold get_tiers_for_currency
  simp only [hdef]
  rcases TIER_DEFINITIONS_eq_some hdef with
    h | h | h | h | h | h | h | h | h | h | h | h | h <;> subst h
  · exact curated_tables_ok.1.2.2
  · exact curated_tables_ok.2.1.2.2
  · exact generate_granular_tiers_ne_nil (by norm_num)
  · exact generate_granular_tiers_ne_nil (by norm_num)
  · exact generate_granular_tiers_ne_nil (by norm_num)
  · exact curated_tables_ok.2.2.1.2.2
  · exact curated_tables_ok.2.2.2.1.2.2
  · exact curated_tables_ok.2.2.2.2.1.2.2
  · exact curated_tables_ok.2.2.2.2.2.1.2.2
  · exact curated_tables_ok.2.2.2.2.2.2.1.2.2
  · exact curated_tables_ok.2.2.2.2.2.2.2.1.2.2
  · exact curated_tables_ok.2.2.2.2.2.2.2.2.1.2.2
  · exact curated_tables_ok.2.2.2.2.2.2.2.2.2.2.2

theorem get_tiers_ne_nil_of_reference (c : String) (rp : ℚ)
    (h : 29/30000 ≤ rp) : get_tiers_for_currency c (some rp) ≠ [] := by
  rcases hdef : TIER_DEFINITIONS (pyUpper c) with _ | l
  · unfold get_tiers_for_currency
    simp only [hdef]
    rw [if_pos (by linarith : rp > 0)]
    exact generate_granular_tiers_ne_nil (by linarith)
  · exact get_tiers_ne_nil_of_curated c (some rp) l hdef

theorem maxIncreaseUp_pos {price : ℚ} (h : 0 < price) : 0 < maxIncreaseUp price := by
  unfold maxIncreaseUp
  split
  · split
    · rename_i h1 h2
      linarith [h2.2]
    · split
      · split
        · rename_i h1 h2 h3
          linarith
        · norm_num
      · norm_num
  · split
    · norm_num
    · split
      · norm_num
      · split
        · norm_num
        · split
          · norm_num
          · rename_i h1 h2 h3 h4 h5
            push_neg at h5
            have : (0 : ℚ) < price * 0.0001 := by positivity
            simp only [lt_min_iff]
            constructor
            · norm_num
            · exact this

/-- One scan step preserves "each best slot holds only values satisfying
`Q` and strictly greater than the price". -/
theorem tierScanStep_inv (price mi x : ℚ) (a b : Option ℚ) (Q : ℚ → Prop)
    (ha : ∀ t, a = some t → Q t) (hb : ∀ t, b = some t → Q t)
    (hx : price < x → Q x) :
    (∀ t, (tierScanStep price mi (a, b) x).1 = some t → Q t) ∧
    (∀ t, (tierScanStep price mi (a, b) x).2 = some t → Q t) := by
  unfold tierScanStep
  by_cases hcond : x > price ∧ x - price ≤ mi
  · rw [if_pos hcond]
    by_cases h99 : endsIn99 x = true
    · rw [if_pos h99]
      cases a with
      | none =>
        refine ⟨fun t ht => ?_, fun t ht => hb t ht⟩
        exact (Option.some.inj ht) ▸ hx hcond.1
      | some ba =>
        dsimp only
        split
        · refine ⟨fun t ht => ?_, fun t ht => hb t ht⟩
          exact (Option.some.inj ht) ▸ hx hcond.1
        · exact ⟨ha, hb⟩
    · rw [if_neg h99]
      cases b with
      | none =>
        refine ⟨fun t ht => ha t ht, fun t ht => ?_⟩
        exact (Option.some.inj ht) ▸ hx hcond.1
      | some bb =>
        dsimp only
        split
        · refine ⟨fun t ht => ha t ht, fun t ht => ?_⟩
          exact (Option.some.inj ht) ▸ hx hcond.1
        · exact ⟨ha, hb⟩
  · rw [if_neg hcond]
    exact ⟨ha, hb⟩

/-- Invariant of the tier scan: each `best` slot only ever holds a tier
of the scanned list that is strictly greater than the price. -/
theorem tierScan_fold_inv (price mi : ℚ) (P : ℚ → Prop) :
    ∀ (l : List ℚ), (∀ t ∈ l, P t) →
    ∀ (s : Option ℚ × Option ℚ),
      (∀ t, s.1 = some t → P t ∧ price < t) →
      (∀ t, s.2 = some t → P t ∧ price < t) →
      (∀ t, (l.foldl (tierScanStep price mi) s).1 = some t → P t ∧ price < t) ∧
      (∀ t, (l.foldl (tierScanStep price mi) s).2 = some t → P t ∧ price < t) := by
  intro l
  induction l with
  | nil =>
    intro _ s h1 h2
    exact ⟨h1, h2⟩
  | cons x xs ih =>
    intro hl s h1 h2
    obtain ⟨a, b⟩ := s
    have hx : P x := hl x (List.mem_cons_self x xs)
    have hxs : ∀ t ∈ xs, P t := fun t ht => hl t (List.mem_cons_of_mem x ht)
    rw [List.foldl_cons]
    have step := tierScanStep_inv price mi x a b (fun t => P t ∧ price < t)
      (fun t ht => h1 t ht) (fun t ht => h2 t ht) (fun hlt => ⟨hx, hlt⟩)
    exact ih hxs (tierScanStep price mi (a, b) x) step.1 step.2

theorem tierScan_inv (price mi : ℚ) (tiers : List ℚ) :
    (∀ t, (tierScan price mi tiers).1 = some t → t ∈ tiers ∧ price < t) ∧
    (∀ t, (tierScan price mi tiers).2 = some t → t ∈ tiers ∧ price < t) := by
  unfold tierScan
  exact tierScan_fold_inv price mi (· ∈ tiers) tiers (fun t ht => ht) (none, none)
    (fun t ht => Option.noConfusion ht) (fun t ht => Option.noConfusion ht)

/-- Core inequality of the `"up"` mode: the snapped price is strictly
greater than the raw price, for any tier list of two-decimal values. -/
theorem snapUpCore_gt {price mi : ℚ} (hmi : 0 < mi) (n1 : ℚ) {tiers : List ℚ}
    (h2 : ∀ t ∈ tiers, TwoDec t) : price < snapUpCore price mi n1 tiers := by
  have hminpos : 0 < min 0.01 mi := lt_min (by norm_num) hmi
  unfold snapUpCore
  by_cases hcond : endsIn99 n1 = true ∧ n1 > price ∧ n1 - price ≤ mi
  · rw [if_pos hcond]
    exact hcond.2.1
  · rw [if_neg hcond]
    rcases hscan : tierScan price mi tiers with ⟨s1, s2⟩
    rcases s1 with _ | t
    · rcases s2 with _ | t
      · show price < if n1 ≤ price then price + min 0.01 mi else n1
        by_cases hle : n1 ≤ price
        · rw [if_pos hle]
          linarith
        · rw [if_neg hle]
          exact not_le.mp hle
      · show price < pyRound 2 t
        have ht := (tierScan_inv price mi tiers).2 t (by rw [hscan])
        rw [pyRound_eq_of_twoDec (h2 t ht.1)]
        exact ht.2
    · show price < pyRound 2 t
      have ht := (tierScan_inv price mi tiers).1 t (by rw [hscan])
      rw [pyRound_eq_of_twoDec (h2 t ht.1)]
      exact ht.2

theorem snapUp_gt {price : ℚ} (hp : 0 < price) {tiers : List ℚ}
    (h2 : ∀ t ∈ tiers, TwoDec t) : price < snapUp price tiers :=
  snapUpCore_gt (maxIncreaseUp_pos hp) _ h2

/-! ## Claims about the tier resolver -/

/-- C1: for every currency and every price strictly greater than 0, the
tier resolver (`snap_to_tier` in the default `"up"` mode) returns a value
greater than or equal to the input price, with equality permitted only
when the input price exceeds every tier in the catalog.  (In fact the
`"up"` mode always returns a strictly greater value, so the equality
proviso holds vacuously.) -/
theorem c1_snap_to_tier_ge_price (price : ℚ) (currency : String) (h : 0 < price) :
    ∃ v, snap_to_tier price currency none = some v ∧ price ≤ v ∧
      (v = price → ∀ t ∈ get_tiers_for_currency currency (some price), t < price) := by
  have hgt : price < snapUp price (get_tiers_for_currency currency (some price)) :=
    snapUp_gt h (get_tiers_twoDec currency (some price))
  refine ⟨snapUp price (get_tiers_for_currency currency (some price)), ?_, le_of_lt hgt, ?_⟩
  · unfold snap_to_tier
    rw [if_neg (not_le.mpr h)]
    rfl
  · intro he t ht
    rw [he] at hgt
    exact absurd hgt (lt_irrefl price)

theorem c1_witness :
    0 < (1 : ℚ) ∧
    ∃ v, snap_to_tier 1 "USD" none = some v ∧ 1 ≤ v ∧
      (v = 1 → ∀ t ∈ get_tiers_for_currency "USD" (some 1), t < 1) :=
  ⟨by norm_num, c1_snap_to_tier_ge_price 1 "USD" (by norm_num)⟩

/-- C2 counterexample: at raw price 150 USD the implementation returns
150.99 (a synthesized `.99` nice number that is not even a catalog
tier), while the spec's algorithm would return the first catalog tier
strictly above 150, namely 199.99. -/
theorem c2_counterexample :
    snap_to_tier 150 "USD" none = some (15099/100) ∧
    resolveSpecC2 150 (get_tiers_for_currency "USD" (some 150)) = some (19999/100) ∧
    ((15099 : ℚ)/100 ≠ 19999/100 ∧ (15099 : ℚ)/100 ∉ get_tiers_for_currency "USD" (some 150)) := by
  refine ⟨by decide, by decide, by decide, by decide⟩

/-- C2 (amended): for every currency and raw price strictly greater
than 0, the resolver fetches the currency's tier sequence using the raw
price as the synthesis reference when no curated table exists, and
returns a value strictly greater than the raw price; but it is not in
general the first tier strictly greater than the raw price, and when the
raw price exceeds every tier the result is not a member of the tier list
at all (a synthesized nice number), rather than the maximum tier. -/
theorem c2_amended (price : ℚ) (currency : String) (h : 0 < price) :
    snap_to_tier price currency none
        = some (snapUp price (get_tiers_for_currency currency (some price))) ∧
    price < snapUp price (get_tiers_for_currency currency (some price)) ∧
    ((∀ t ∈ get_tiers_for_currency currency (some price), t < price) →
      snapUp price (get_tiers_for_currency currency (some price))
        ∉ get_tiers_for_currency currency (some price)) := by
  have hgt : price < snapUp price (get_tiers_for_currency currency (some price)) :=
    snapUp_gt h (get_tiers_twoDec currency (some price))
  refine ⟨?_, hgt, ?_⟩
  · unfold snap_to_tier
    rw [if_neg (not_le.mpr h)]
    rfl
  · intro hall hmem
    exact absurd hgt (not_lt.mpr (le_of_lt (hall _ hmem)))

theorem c2_amended_witness :
    0 < (150 : ℚ) ∧
    (snap_to_tier 150 "USD" none
        = some (snapUp 150 (get_tiers_for_currency "USD" (some 150))) ∧
    (150 : ℚ) < snapUp 150 (get_tiers_for_currency "USD" (some 150)) ∧
    ((∀ t ∈ get_tiers_for_currency "USD" (some 150), t < 150) →
      snapUp 150 (get_tiers_for_currency "USD" (some 150))
        ∉ get_tiers_for_currency "USD" (some 150))) :=
  ⟨by norm_num, c2_amended 150 "USD" (by norm_num)⟩

/-- C10: for every price less than or equal to 0, every currency and
every snapping mode, `snap_to_tier` returns the input price unchanged,
raising no error. -/
theorem c10_snap_to_tier_nonpos (price : ℚ) (currency : String) (mode : Option String)
    (h : price ≤ 0) : snap_to_tier price currency mode = some price := by
  unfold snap_to_tier
  rw [if_pos h]

theorem c10_witness :
    (-1 : ℚ) ≤ 0 ∧ snap_to_tier (-1) "EUR" (some "nearest") = some (-1) :=
  ⟨by norm_num, c10_snap_to_tier_nonpos (-1) "EUR" (some "nearest") (by norm_num)⟩

/-- C8 counterexample: for a currency without a curated table and the
strictly positive reference price 1/2000, the synthesized tier list is
empty (the generator's start value 0.29 already exceeds
`limit = 1.5 * (200 * reference)`), refuting non-emptiness. -/
theorem c8_counterexample :
    (0 : ℚ) < 1/2000 ∧ get_tiers_for_currency "XYZ" (some (1/2000)) = [] := by
  constructor
  · norm_num
  · decide

/-- C8 (amended): for every currency code and reference the tier list
returned by the tier catalog is strictly increasing; it is non-empty
whenever the currency has a curated table, and in the synthesized case
it is non-empty for every reference price of at least `29/30000`
(about 0.000967); for smaller positive references it is empty. -/
theorem c8_amended :
    (∀ (c : String) (r : Option ℚ), (get_tiers_for_currency c r).Pairwise (· < ·)) ∧
    (∀ (c : String) (r : Option ℚ) (l : List ℚ),
        TIER_DEFINITIONS (pyUpper c) = some l → get_tiers_for_currency c r ≠ []) ∧
    (∀ (c : String) (rp : ℚ), 29/30000 ≤ rp → get_tiers_for_currency c (some rp) ≠ []) :=
  ⟨get_tiers_pairwise, get_tiers_ne_nil_of_curated, get_tiers_ne_nil_of_reference⟩

theorem c8_witness :
    TIER_DEFINITIONS (pyUpper "vnd") = some vndTiers ∧
    (29 : ℚ)/30000 ≤ 1 ∧
    (get_tiers_for_currency "ZZZ" (some 1)).Pairwise (· < ·) ∧
    get_tiers_for_currency "vnd" none ≠ [] ∧
    get_tiers_for_currency "ZZZ" (some 1) ≠ [] :=
  ⟨by decide, by norm_num, c8_amended.1 "ZZZ" (some 1),
   c8_amended.2.1 "vnd" none vndTiers (by decide),
   c8_amended.2.2 "ZZZ" 1 (by norm_num)⟩

theorem char_toNat_ofNat {n : ℕ} (h : n.isValidChar) : (Char.ofNat n).toNat = n := by
  unfold Char.ofNat
  rw [dif_pos h]
  rfl

theorem char_toUpper_idem (c : Char) : Char.toUpper (Char.toUpper c) = Char.toUpper c := by
  by_cases h : c.toNat ≥ 97 ∧ c.toNat ≤ 122
  · have h1 : c.toUpper = Char.ofNat (c.toNat - 32) := by
      unfold Char.toUpper
      rw [if_pos h]
    rw [h1]
    have hval : (Char.ofNat (c.toNat - 32)).toNat = c.toNat - 32 :=
      char_toNat_ofNat (Or.inl (by omega))
    unfold Char.toUpper
    dsimp only
    rw [hval, if_neg (by omega)]
  · have h1 : c.toUpper = c := by
      unfold Char.toUpper
      rw [if_neg h]
    rw [h1, h1]

theorem pyUpper_idem (s : String) : pyUpper (pyUpper s) = pyUpper s := by
  show String.mk (List.map Char.toUpper (List.map Char.toUpper s.data)) = _
  rw [List.map_map]
  congr 1
  exact List.map_congr_left (fun c _ => char_toUpper_idem c)

theorem get_tax_rate_pyUpper (c : String) :
    get_tax_rate (pyUpper c) = get_tax_rate c := by
  unfold get_tax_rate
  rw [pyUpper_idem]

theorem is_vat_inclusive_pyUpper (c : String) :
    is_vat_inclusive (pyUpper c) = is_vat_inclusive c := by
  unfold is_vat_inclusive
  rw [pyUpper_idem]

theorem lookup_getD_nonneg (l : List (String × ℚ)) (hl : ∀ p ∈ l, 0 ≤ p.2) (k : String) :
    0 ≤ (l.lookup k).getD 0 := by
  induction l with
  | nil => norm_num [List.lookup]
  | cons p rest ih =>
    obtain ⟨a, v⟩ := p
    simp only [List.lookup]
    split
    · exact hl (a, v) (List.mem_cons_self _ _)
    · exact ih (fun q hq => hl q (List.mem_cons_of_mem _ hq))

/-- Every rate in the table is non-negative, hence so is every lookup. -/
theorem get_tax_rate_nonneg (c : String) : 0 ≤ get_tax_rate c := by
  unfold get_tax_rate
  exact lookup_getD_nonneg TAX_RATES (by decide) (pyUpper c)

theorem calculate_tax_eq (price : ℚ) (country : String) :
    calculate_tax price country =
      if is_vat_inclusive country
      then (price - price / (1 + get_tax_rate country),
            price / (1 + get_tax_rate country))
      else (price * get_tax_rate country, price) := by
  unfold calculate_tax
  dsimp only
  rw [get_tax_rate_pyUpper, is_vat_inclusive_pyUpper]
  by_cases hinc : is_vat_inclusive country
  · rw [if_pos hinc, if_pos hinc]
    by_cases hz : get_tax_rate country = 0
    · rw [if_pos hz, hz]
      norm_num
    · rw [if_neg hz]
  · rw [if_neg hinc, if_neg hinc]

/-- C4: for every visible price and country code, the tax computation
returns `vatAmount = price - price/(1+r)` and `netBeforeFees =
price/(1+r)` when the country is classified VAT-inclusive with rate `r`,
and `vatAmount = price * r`, `netBeforeFees = price` otherwise
(VAT-exclusive, no-VAT, or unknown, which defaults to rate 0). -/
theorem c4_calculate_tax (price : ℚ) (country : String) :
    calculate_tax price country =
      if is_vat_inclusive country
      then (price - price / (1 + get_tax_rate country),
            price / (1 + get_tax_rate country))
      else (price * get_tax_rate country, price) :=
  calculate_tax_eq price country

/-- C3: the stability decision adopts the new price exactly when no
previous price is recorded, or either price is non-positive, or the new
price is strictly lower, or the new price is at least the previous one
and the relative increase exceeds `PRICE_CHANGE_THRESHOLD` (0.05);
otherwise it holds. -/
theorem c3_stability_law (n : ℚ) (tier : ℚ) (cur : String) :
    (should_update_price n none tier cur).1 = true ∧
    ∀ p : ℚ, ((should_update_price n (some p) tier cur).1 = true ↔
      (n ≤ 0 ∨ p ≤ 0 ∨ n < p ∨
        (p ≤ n ∧ (n - p) / p > PRICE_CHANGE_THRESHOLD))) := by
  refine ⟨rfl, ?_⟩
  intro p
  simp only [should_update_price]
  by_cases h0 : n ≤ 0 ∨ p ≤ 0
  · rw [if_pos h0]
    simp only [true_iff]
    tauto
  · rw [if_neg h0]
    by_cases hlt : n < p
    · rw [if_pos hlt]
      simp only [true_iff]
      tauto
    · rw [if_neg hlt]
      have hge : p ≤ n := not_lt.mp hlt
      rw [abs_of_nonneg (sub_nonneg.mpr hge)]
      by_cases hth : (n - p) / p > PRICE_CHANGE_THRESHOLD
      · rw [if_pos hth]
        simp only [true_iff]
        exact Or.inr (Or.inr (Or.inr ⟨hge, hth⟩))
      · rw [if_neg hth]
        constructor
        · intro hctr
          exact absurd hctr (by simp)
        · rintro (h | h | h | ⟨_, h⟩)
          · exact absurd h (not_or.mp h0).1
          · exact absurd h (not_or.mp h0).2
          · exact absurd h hlt
          · exact absurd h hth

theorem c3_witness :
    ((should_update_price (509/100) (some (499/100)) (499/100) "EUR").1 = true ↔
      ((509:ℚ)/100 ≤ 0 ∨ (499:ℚ)/100 ≤ 0 ∨ (509:ℚ)/100 < 499/100 ∨
        ((499:ℚ)/100 ≤ 509/100 ∧
          ((509:ℚ)/100 - 499/100) / (499/100) > PRICE_CHANGE_THRESHOLD))) ∧
    (should_update_price (509/100) (some (499/100)) (499/100) "EUR").1 = false :=
  ⟨(c3_stability_law (509/100) (499/100) "EUR").2 (499/100), by decide⟩

/-- C7: when the gate holds, `apply_price_stability` replaces only the
`User_Pays` field of the record with the previously published price and
leaves every other field at the newly computed value; when it adopts,
the record is returned entirely unchanged. -/
theorem c7_apply_price_stability (rec : PriceRecord) (existing : String → Option ℚ) :
    ((should_update_price rec.User_Pays
        (existing (rec.Country ++ ":" ++ rec.AppleStoreSku))
        rec.Price_Tier rec.Currency).1 = true →
      apply_price_stability rec existing = (rec, true)) ∧
    ((should_update_price rec.User_Pays
        (existing (rec.Country ++ ":" ++ rec.AppleStoreSku))
        rec.Price_Tier rec.Currency).1 = false →
      ∃ p, existing (rec.Country ++ ":" ++ rec.AppleStoreSku) = some p ∧
        apply_price_stability rec existing = ({ rec with User_Pays := p }, false)) := by
  constructor
  · intro hsu
    unfold apply_price_stability
    dsimp only
    rw [hsu]
    simp
  · intro hsu
    rcases hex : existing (rec.Country ++ ":" ++ rec.AppleStoreSku) with _ | p
    · rw [hex] at hsu
      exact absurd hsu (by simp [should_update_price])
    · refine ⟨p, rfl, ?_⟩
      unfold apply_price_stability
      dsimp only
      rw [hex] at hsu ⊢
      rw [if_pos hsu]
      rfl

theorem c7_witness :
    (should_update_price
        ({ Country := "DE", Country_Name := "Germany", Currency := "EUR",
           Price_Tier := 499/100, AppleStoreSku := "sku1", GooglePlaySku := "g1",
           Local_Price := 459/100, User_Pays := 509/100, Stash_Price := 509/100,
           VAT_Rate := 19, VAT_Amount := 81/100, Gross_USD := 553/100,
           Stash_Fee_USD := 0, Net_USD := 465/100,
           Net_vs_Apple := 20 } : PriceRecord).User_Pays
        ((fun k => if k = "DE:sku1" then some (499/100) else none)
          ("DE:sku1"))
        (499/100) "EUR").1 = false ∧
    ∃ p, (fun k => if k = "DE:sku1" then some (499/100) else none) "DE:sku1" = some p ∧
      apply_price_stability
        { Country := "DE", Country_Name := "Germany", Currency := "EUR",
          Price_Tier := 499/100, AppleStoreSku := "sku1", GooglePlaySku := "g1",
          Local_Price := 459/100, User_Pays := 509/100, Stash_Price := 509/100,
          VAT_Rate := 19, VAT_Amount := 81/100, Gross_USD := 553/100,
          Stash_Fee_USD := 0, Net_USD := 465/100, Net_vs_Apple := 20 }
        (fun k => if k = "DE:sku1" then some (499/100) else none) =
      ({ Country := "DE", Country_Name := "Germany", Currency := "EUR",
         Price_Tier := 499/100, AppleStoreSku := "sku1", GooglePlaySku := "g1",
         Local_Price := 459/100, User_Pays := p, Stash_Price := 509/100,
         VAT_Rate := 19, VAT_Amount := 81/100, Gross_USD := 553/100,
         Stash_Fee_USD := 0, Net_USD := 465/100, Net_vs_Apple := 20 }, false) := by
  constructor
  · decide
  · exact (c7_apply_price_stability
      { Country := "DE", Country_Name := "Germany", Currency := "EUR",
        Price_Tier := 499/100, AppleStoreSku := "sku1", GooglePlaySku := "g1",
        Local_Price := 459/100, User_Pays := 509/100, Stash_Price := 509/100,
        VAT_Rate := 19, VAT_Amount := 81/100, Gross_USD := 553/100,
        Stash_Fee_USD := 0, Net_USD := 465/100, Net_vs_Apple := 20 }
      (fun k => if k = "DE:sku1" then some (499/100) else none)).2 (by decide)

/-! ## Claims about the conversion pipeline -/

theorem calculate_tax_snd_eq_price (vis : ℚ) (country : String)
    (hni : is_vat_inclusive country = false ∨ get_tax_rate country = 0) :
    (calculate_tax vis country).2 = vis := by
  rw [calculate_tax_eq]
  rcases hni with h | h
  · rw [if_neg (by simp [h])]
  · by_cases hinc : is_vat_inclusive country = true
    · rw [if_pos hinc, h]
      norm_num
    · rw [if_neg hinc]

theorem convert_currency_to_usd_zero (currency : String) (rates : String → Option ℚ) :
    convert_currency_to_usd 0 currency rates = 0 := by
  unfold convert_currency_to_usd
  dsimp only
  split
  · rfl
  · simp

theorem stash_fees_zero (x : ℚ) : calculate_stash_fees x = 0 := by
  unfold calculate_stash_fees STASH_FEE_PERCENT STASH_FIXED_FEE
  ring

/-- Core of the amended C5: with the configured zero fees and a country
whose visible price carries no included VAT, the USD net equals the USD
gross minus the USD fee. -/
theorem net_eq_gross_sub_fee (vis : ℚ) (country currency : String)
    (rates : String → Option ℚ)
    (hni : is_vat_inclusive country = false ∨ get_tax_rate country = 0) :
    pyRound 2 (convert_currency_to_usd
        ((calculate_tax vis country).2 - calculate_stash_fees (calculate_tax vis country).2)
        currency rates)
      = pyRound 2 (convert_currency_to_usd vis currency rates)
        - pyRound 2 (convert_currency_to_usd
            (calculate_stash_fees (calculate_tax vis country).2) currency rates) := by
  rw [stash_fees_zero, sub_zero, calculate_tax_snd_eq_price vis country hni,
      convert_currency_to_usd_zero]
  have h0 : pyRound 2 (0 : ℚ) = 0 := by decide
  rw [h0, sub_zero]

set_option maxRecDepth 16000 in
set_option maxHeartbeats 2000000 in
/-- C5 counterexample: for the USD tier 4.99 in Germany (EUR at rate
0.92) the produced record has `Net_USD = 4.56` but
`Gross_USD - Stash_Fee_USD = 5.42 - 0 = 5.42`: the invariant
`Net_USD = Gross_USD - Stash_Fee_USD` fails, because the net is derived
from the tax-exclusive net-before-fees, not from the gross. -/
theorem c5_counterexample :
    (convert_sku_for_country ⟨"sku1", "g1", some (499/100)⟩ "DE" "EUR"
        (fun c => if c = "EUR" then some (92/100) else none) []).map
      (fun rec => (rec.Net_USD, rec.Gross_USD, rec.Stash_Fee_USD))
      = some (456/100, 542/100, 0) ∧
    (456 : ℚ)/100 ≠ 542/100 - 0 := by
  constructor
  · decide
  · norm_num

/-- C5 (amended): every record produced by the per-pair conversion for a
country that is not VAT-inclusive, or whose VAT rate is zero, satisfies
`Net_USD = Gross_USD - Stash_Fee_USD`; for VAT-inclusive countries with
a positive rate the produced record instead derives `Net_USD` from the
tax-exclusive net-before-fees, so the equality with the gross fails. -/
theorem c5_amended (sku : Sku) (country currency : String)
    (rates : String → Option ℚ) (appleMap : List (ℚ × List (String × ℚ)))
    (rec : PriceRecord)
    (hconv : convert_sku_for_country sku country currency rates appleMap = some rec)
    (hni : is_vat_inclusive country = false ∨ get_tax_rate country = 0) :
    rec.Net_USD = rec.Gross_USD - rec.Stash_Fee_USD := by
  unfold convert_sku_for_country at hconv
  rcases hc : sku.Cost with _ | usd
  · rw [hc] at hconv
    simp at hconv
  · rw [hc] at hconv
    simp only [Option.bind_eq_bind] at hconv
    rw [Option.some_bind] at hconv
    rcases hv : visibilityCandidate (applePriceLookup appleMap usd currency)
        (convert_usd_to_currency usd currency rates) currency with _ | v0
    · rw [hv] at hconv
      simp at hconv
    · rw [hv] at hconv
      rw [Option.some_bind] at hconv
      replace hconv := Option.some.inj hconv
      subst hconv
      exact net_eq_gross_sub_fee _ country currency rates hni

set_option maxRecDepth 16000 in
set_option maxHeartbeats 2000000 in
theorem c5_witness :
    convert_sku_for_country ⟨"s", "g", some (999/100)⟩ "US" "USD"
        (fun c => if c = "USD" then some 1 else none) [] =
      some { Country := "US", Country_Name := "United States", Currency := "USD",
             Price_Tier := 999/100, AppleStoreSku := "s", GooglePlaySku := "g",
             Local_Price := 999/100, User_Pays := 1099/100, Stash_Price := 1099/100,
             VAT_Rate := 0, VAT_Amount := 0, Gross_USD := 1099/100,
             Stash_Fee_USD := 0, Net_USD := 1099/100, Net_vs_Apple := 300/7 } ∧
    (is_vat_inclusive "US" = false ∨ get_tax_rate "US" = 0) ∧
    (1099 : ℚ)/100 = 1099/100 - 0 := by
  refine ⟨by decide, Or.inl (by decide), ?_⟩
  have := c5_amended ⟨"s", "g", some (999/100)⟩ "US" "USD"
    (fun c => if c = "USD" then some 1 else none) []
    { Country := "US", Country_Name := "United States", Currency := "USD",
      Price_Tier := 999/100, AppleStoreSku := "s", GooglePlaySku := "g",
      Local_Price := 999/100, User_Pays := 1099/100, Stash_Price := 1099/100,
      VAT_Rate := 0, VAT_Amount := 0, Gross_USD := 1099/100,
      Stash_Fee_USD := 0, Net_USD := 1099/100, Net_vs_Apple := 300/7 }
    (by decide) (Or.inl (by decide))
  exact this

/-- C6: the remittance ("Stash") price equals `userPays / (1 + rate)`
exactly for processor-pre-tax, VAT-inclusive countries, and `userPays`
unchanged for every other country (processor-pre-tax VAT-exclusive ones
and processor-VAT-inclusive ones). -/
theorem c6_stash_price (u : ℚ) (country : String) :
    ((STASH_PRE_TAX_COUNTRIES.contains (pyUpper country) &&
        is_vat_inclusive country) = true →
      get_stash_price u country = u / (1 + get_tax_rate country)) ∧
    ((STASH_PRE_TAX_COUNTRIES.contains (pyUpper country) &&
        is_vat_inclusive country) = false →
      get_stash_price u country = u) := by
  unfold get_stash_price
  dsimp only
  rw [is_vat_inclusive_pyUpper, get_tax_rate_pyUpper]
  constructor
  · intro h
    rw [if_pos h]
  · intro h
    have hne : ¬((STASH_PRE_TAX_COUNTRIES.contains (pyUpper country) &&
        is_vat_inclusive country) = true) := by
      rw [h]
      exact Bool.false_ne_true
    rw [if_neg hne]

theorem c6_witness :
    ((STASH_PRE_TAX_COUNTRIES.contains (pyUpper "BR") &&
        is_vat_inclusive "BR") = true) ∧
    get_stash_price 10 "BR" = 10 / (1 + get_tax_rate "BR") ∧
    get_stash_price (499/100) "US" = 499/100 :=
  ⟨by decide, (c6_stash_price 10 "BR").1 (by decide),
   (c6_stash_price (499/100) "US").2 (by decide)⟩

theorem processCountries_eq (sku : Sku) (rates : String → Option ℚ)
    (appleMap : List (ℚ × List (String × ℚ))) :
    ∀ (pairs : List (String × String)) (acc : List PriceRecord),
      processCountries sku rates appleMap pairs acc =
        acc ++ pairs.filterMap (fun p =>
          if p.1 ∈ EXCLUDED_COUNTRIES then none
          else convert_sku_for_country sku p.1 p.2 rates appleMap) := by
  intro pairs
  induction pairs with
  | nil =>
    intro acc
    simp [processCountries]
  | cons p rest ih =>
    intro acc
    obtain ⟨cc, cur⟩ := p
    unfold processCountries
    by_cases hex : cc ∈ EXCLUDED_COUNTRIES
    · rw [if_pos hex, ih, List.filterMap_cons]
      have : (if (cc, cur).1 ∈ EXCLUDED_COUNTRIES then none
          else convert_sku_for_country sku (cc, cur).1 (cc, cur).2 rates appleMap) = none := by
        rw [if_pos hex]
      rw [this]
    · rw [if_neg hex]
      rcases hcv : convert_sku_for_country sku cc cur rates appleMap with _ | r
      · dsimp only
        rw [ih, List.filterMap_cons]
        have : (if (cc, cur).1 ∈ EXCLUDED_COUNTRIES then none
            else convert_sku_for_country sku (cc, cur).1 (cc, cur).2 rates appleMap) = none := by
          rw [if_neg hex]
          exact hcv
        rw [this]
      · dsimp only
        rw [ih, List.filterMap_cons]
        have : (if (cc, cur).1 ∈ EXCLUDED_COUNTRIES then none
            else convert_sku_for_country sku (cc, cur).1 (cc, cur).2 rates appleMap) = some r := by
          rw [if_neg hex]
          exact hcv
        rw [this]
        simp

theorem processSkus_eq (rates : String → Option ℚ)
    (appleMap : List (ℚ × List (String × ℚ))) (pairs : List (String × String)) :
    ∀ (skus : List Sku) (acc : List PriceRecord),
      processSkus rates appleMap pairs skus acc =
        acc ++ skus.flatMap (fun sku => pairs.filterMap (fun p =>
          if p.1 ∈ EXCLUDED_COUNTRIES then none
          else convert_sku_for_country sku p.1 p.2 rates appleMap)) := by
  intro skus
  induction skus with
  | nil =>
    intro acc
    simp [processSkus]
  | cons sku rest ih =>
    intro acc
    unfold processSkus
    rw [processCountries_eq, ih, List.flatMap_cons, List.append_assoc]

/-- C9: a per-pair computation failure makes the conversion return
`none` (here: a malformed SKU cost string, the body's fallible step),
and the pipeline loop equals a `filterMap` over the SKU x country
product: a failed pair contributes no record and never aborts the rest
of the batch, so the run returns exactly the records of the pairs that
succeeded. -/
theorem c9_partial_failure (skus : List Sku)
    (ccmap : List (String × String)) (rates : String → Option ℚ)
    (appleMap : List (ℚ × List (String × ℚ))) :
    (∀ (sku : Sku) (country currency : String), sku.Cost = none →
      convert_sku_for_country sku country currency rates appleMap = none) ∧
    process_all_skus_with_rates skus ccmap rates appleMap =
      skus.flatMap (fun sku => ccmap.filterMap (fun p =>
        if p.1 ∈ EXCLUDED_COUNTRIES then none
        else convert_sku_for_country sku p.1 p.2 rates appleMap)) := by
  constructor
  · intro sku country currency hc
    unfold convert_sku_for_country
    rw [hc]
    rfl
  · unfold process_all_skus_with_rates
    by_cases he : skus.isEmpty
    · rw [if_pos he]
      rw [List.isEmpty_iff] at he
      subst he
      simp
    · rw [if_neg he]
      rw [processSkus_eq]
      simp

theorem c9_witness :
    convert_sku_for_country ⟨"bad", "b", none⟩ "US" "USD"
        (fun c => if c = "USD" then some 1 else none) [] = none ∧
    process_all_skus_with_rates [⟨"s", "g", some (999/100)⟩, ⟨"bad", "b", none⟩]
        [("US", "USD")] (fun c => if c = "USD" then some 1 else none) [] =
      [⟨"s", "g", some (999/100)⟩, (⟨"bad", "b", none⟩ : Sku)].flatMap
        (fun sku => [("US", "USD")].filterMap (fun p =>
          if p.1 ∈ EXCLUDED_COUNTRIES then none
          else convert_sku_for_country sku p.1 p.2
            (fun c => if c = "USD" then some 1 else none) [])) :=
  ⟨(c9_partial_failure [] [] (fun c => if c = "USD" then some 1 else none) []).1
      ⟨"bad", "b", none⟩ "US" "USD" rfl,
   (c9_partial_failure [⟨"s", "g", some (999/100)⟩, ⟨"bad", "b", none⟩]
      [("US", "USD")] (fun c => if c = "USD" then some 1 else none) []).2⟩

